import Mathlib

/-!
Shallow embedding of the `twitter-timeline` extraction pipeline:
`src/extractors/twitter_parser.py`, `src/extractors/utils_time.py` and the
coordinator in `src/runner.py`.

Modelling conventions:
* Python values flowing through the record dictionaries are embedded as the
  `Json` inductive (the result type of `json.loads`); Python truthiness and
  the `or` operator are embedded explicitly.
* External collaborators (HTTP client, BeautifulSoup, dateutil, the process
  clock, the randomisable builtin `hash`) are parameters: the HTML strategy is
  embedded as a function of the selector-level view of the page
  (`HtmlPage`/`HtmlItem`), the network as an environment of fetch outcomes
  (`NetEnv`), `dateutil.parser.parse` as `pd : String → Option String`,
  `datetime.now(...).isoformat()` as `now : String`, and `hash` as
  `pyHash : String → Int` (fixed within one process run).
* Fallible Python code is embedded in `Except PyErr`; a `try/except Exception`
  block is a `match` on the `Except` value.
-/

namespace TwitterTimeline

/-- Python-level JSON values (the possible results of `json.loads`, and the
values stored in the record dictionaries). -/
inductive Json where
  | null
  | bool (b : Bool)
  | num (n : Int)
  | str (s : String)
  | arr (items : List Json)
  | obj (fields : List (String × Json))

/-- Python truthiness of a JSON value (`None`, `False`, `0`, `""`, `[]`, `{}`
are falsy). -/
def truthy : Json → Bool
  | .null => false
  | .bool b => b
  | .num n => n != 0
  | .str s => s != ""
  | .arr xs => !xs.isEmpty
  | .obj fs => !fs.isEmpty

/-- Python `a or b`. -/
def pyOr (a b : Json) : Json := if truthy a then a else b

/-- First binding of key `k` in a Python dict embedded as an association
list (Python dicts have unique keys). -/
def lookupKey (fs : List (String × Json)) (k : String) : Option Json :=
  (fs.find? (fun p => p.1 == k)).map (fun p => p.2)

/-- The Python exceptions relevant to this pipeline. -/
inductive PyErr where
  | attributeError
  | typeError
  | httpError
  | configError
  | jsonDecodeError

/-- Python `str(...)` on a JSON value.  The container cases are the external
builtin repr and are not modelled precisely; no claim depends on them. -/
def pyStr : Json → String
  | .null => "None"
  | .bool true => "True"
  | .bool false => "False"
  | .num n => toString n
  | .str s => s
  | .arr _ => "[...]"
  | .obj _ => "\x7b...\x7d"

/-- Embed an optional Python string (a `str`-or-`None` variable) as `Json`. -/
def optStrJson : Option String → Json
  | some s => .str s
  | none => .null

/-- `utils_time.to_iso8601`.  `pd` abstracts `dateutil.parser.parse` followed
by UTC normalisation (external library): `pd s = some iso` is a successful
parse, `none` a parse exception (`except Exception: pass`).  `now` abstracts
`datetime.now(timezone.utc).isoformat()`.  The function always returns a
string, never `None`. -/
def to_iso8601 (pd : String → Option String) (now : String) : Option String → String
  | none => now
  | some s =>
      if s == "" then now
      else match pd s with
        | some iso => iso
        | none => now

/-- Python `str.isspace` characters relevant to `str.strip()` (ASCII set). -/
def isSpaceCh (c : Char) : Bool :=
  c == ' ' || c == '\t' || c == '\n' || c == '\r' || c == '\x0b' || c == '\x0c'

/-- Word character of the regex class `\w` (ASCII fragment). -/
def isWordCh (c : Char) : Bool := c.isAlphanum || c == '_'

/-- `screen_name.lstrip("@")` — drop the leading run of `@` characters. -/
def pyLstripAt (s : String) : List Char := s.data.dropWhile (fun c => c == '@')

/-- `str.strip()` — drop leading and trailing whitespace. -/
def pyStripWs (cs : List Char) : List Char :=
  ((cs.dropWhile isSpaceCh).reverse.dropWhile isSpaceCh).reverse

/-- Line 58 of twitter_parser.py: `screen_name.lstrip("@").strip()`.
This is the handle every later fetch and synthesis uses. -/
def usedHandle (s : String) : String := String.mk (pyStripWs (pyLstripAt s))

/-- `self.nitter_base.rstrip('/')`. -/
def pyRstripSlash (s : String) : String :=
  String.mk (s.data.reverse.dropWhile (fun c => c == '/')).reverse

/-- Split a list into its maximal leading run satisfying `p` and the rest. -/
def takeRun (p : Char → Bool) : List Char → List Char × List Char
  | [] => ([], [])
  | c :: cs =>
    if p c then
      let r := takeRun p cs
      (c :: r.1, r.2)
    else ([], c :: cs)

/-- Try to match the regex `(\d[\d,\.]*)\s+(\w+)` anchored at the head of the
list, returning the two capture groups.  Backtracking cannot produce a match
the greedy runs miss here: the character classes `[\d,.]`, `\s` and `\w` are
pairwise arranged so that shrinking a greedy run re-tests a character that
still fails the next class. -/
def statMatchAt : List Char → Option (List Char × List Char)
  | [] => none
  | c :: cs =>
    if c.isDigit then
      let numRun := takeRun (fun d => d.isDigit || d == ',' || d == '.') cs
      let wsRun := takeRun isSpaceCh numRun.2
      if wsRun.1.isEmpty then none
      else
        let wordRun := takeRun isWordCh wsRun.2
        if wordRun.1.isEmpty then none else some (c :: numRun.1, wordRun.1)
    else none

/-- `re.search(r"(\d[\d,\.]*)\s+(\w+)", label)`: leftmost match. -/
def statSearch : List Char → Option (List Char × List Char)
  | [] => none
  | c :: cs =>
    match statMatchAt (c :: cs) with
    | some r => some r
    | none => statSearch cs

/-- `int(...)` on a non-empty string of decimal digits. -/
def digitsVal (cs : List Char) : Nat :=
  cs.foldl (fun a c => 10 * a + (c.toNat - 48)) 0

/-- Does `needle` match a prefix of the second list? -/
def subAt : List Char → List Char → Bool
  | [], _ => true
  | _ :: _, [] => false
  | n :: ns, c :: cs => n == c && subAt ns cs

/-- Python substring containment `needle in hay`. -/
def containsSub (needle : List Char) : List Char → Bool
  | [] => needle.isEmpty
  | c :: cs => subAt needle (c :: cs) || containsSub needle cs

/-- The mutable `stats` dict of `_parse_nitter_html` (the four int-valued
entries; `bookmarks` and `views` stay `None` throughout). -/
structure StatCounts where
  replies : Int
  retweets : Int
  quotes : Int
  favorites : Int

def initStats : StatCounts := { replies := 0, retweets := 0, quotes := 0, favorites := 0 }

/-- One iteration of the stat-node loop of `_parse_nitter_html` (lines
118-135) applied to the derived label string: skip empty labels, run the
count regex, strip `','` and `'.'` from the numeric group, classify the label
word by lower-cased substring. -/
def statUpdate (st : StatCounts) (label : String) : StatCounts :=
  if label == "" then st
  else
    match statSearch label.data with
    | none => st
    | some g =>
      let val : Int := (digitsVal (g.1.filter (fun c => !(c == ',' || c == '.'))) : Nat)
      let kind := g.2.map Char.toLower
      if containsSub "like".data kind then { st with favorites := val }
      else if containsSub "retweet".data kind then { st with retweets := val }
      else if containsSub "repl".data kind then { st with replies := val }
      else if containsSub "quote".data kind then { st with quotes := val }
      else st

/-- A stat span node: its `title` attribute (absent ⇒ `none`) and its
`get_text("", strip=True)` result. -/
structure StatNode where
  title : Option String
  text : String

/-- `s.get("title") or s.get_text("", strip=True)`. -/
def statLabel (n : StatNode) : String :=
  match n.title with
  | some t => if t == "" then n.text else t
  | none => n.text

/-- Selector-level view of one `div.timeline-item` node (what BeautifulSoup
returns for the per-item selectors used in `_parse_nitter_html`; absent node
or absent attribute collapses to `none`, exactly as the source treats the two
cases identically). -/
structure HtmlItem where
  tweetLinkHref : Option String
  contentText : Option String
  dateTitle : Option String
  statNodes : List StatNode
  imageSrcs : List (Option String)
  videoPosters : List (Option String)

/-- Selector-level view of the whole page: the timeline items plus the
page-level profile-card selectors (shared by every item). -/
structure HtmlPage where
  items : List HtmlItem
  avatarSrc : Option String
  fullname : Option String
  bioVerified : Bool
  cardVerified : Bool

/-- Match the literal `lit` at the head of `cs`, returning the remainder. -/
def matchLit : List Char → List Char → Option (List Char)
  | [], rest => some rest
  | _, [] => none
  | l :: ls, c :: cs => if c == l then matchLit ls cs else none

/-- `re.search(r"/status/(\d+)", href)`: leftmost occurrence of the literal
`/status/` followed by at least one digit; group 1 is the maximal digit
run. -/
def statusDigits : List Char → Option (List Char)
  | [] => none
  | c :: cs =>
    match matchLit "/status/".data (c :: cs) with
    | some rest =>
      let ds := takeRun Char.isDigit rest
      if ds.1.isEmpty then statusDigits cs else some ds.1
    | none => statusDigits cs

/-- The `author` sub-dict of a normalized record. -/
structure Author where
  rest_id : Json
  name : Json
  screen_name : Json
  avatar : Json
  blue_verified : Json

/-- One normalized post record (the dict `obj` built by each strategy). -/
structure Record where
  tweet_id : Json
  created_at : Json
  text : Json
  lang : Json
  views : Json
  favorites : Json
  replies : Json
  retweets : Json
  quotes : Json
  bookmarks : Json
  conversation_id : Json
  media : Json
  author : Author

/-- The folded stat counts of one item. -/
def statsOf (item : HtmlItem) : StatCounts :=
  item.statNodes.foldl (fun st n => statUpdate st (statLabel n)) initStats

/-- The `media` list of one HTML item (images with truthy `src`, videos with
truthy `data-poster`). -/
def htmlMedia (item : HtmlItem) : Json :=
  .arr
    ((item.imageSrcs.filterMap (fun s =>
        match s with
        | some u => if u == "" then none else some (Json.obj [("type", .str "photo"), ("url", .str u)])
        | none => none)) ++
     (item.videoPosters.filterMap (fun p =>
        match p with
        | some u => if u == "" then none else some (Json.obj [("type", .str "video"), ("url", .str u)])
        | none => none)))

/-- The record dict built for one timeline item by `_parse_nitter_html`
(lines 92-175).  Note line 163: the field is `created_at or created_at_iso`,
so the raw title string wins whenever it is truthy and the computed
`created_at_iso` value is dead in every branch. -/
def mkHtmlRecord (pd : String → Option String) (now : String) (page : HtmlPage)
    (screenName : String) (item : HtmlItem) : Record :=
  let sid : Option String :=
    match item.tweetLinkHref with
    | some href =>
        if href == "" then none
        else (statusDigits href.data).map (fun ds => String.mk ds)
    | none => none
  let created_at : Option String := item.dateTitle
  let created_at_iso : Option String :=
    match created_at with
    | some s => if s != "" then some (to_iso8601 pd now (some s)) else none
    | none => none
  let createdField : Json :=
    match created_at with
    | some s => if s != "" then .str s else optStrJson created_at_iso
    | none => optStrJson created_at_iso
  let st := statsOf item
  { tweet_id := optStrJson sid
    created_at := createdField
    text := optStrJson item.contentText
    lang := .null
    views := .null
    favorites := .num st.favorites
    replies := .num st.replies
    retweets := .num st.retweets
    quotes := .num st.quotes
    bookmarks := .null
    conversation_id := optStrJson sid
    media := htmlMedia item
    author :=
      { rest_id := .null
        name := (match page.fullname with | some t => .str t | none => .str screenName)
        screen_name := .str screenName
        avatar := (match page.avatarSrc with
                   | some s => if s == "" then .null else .str s
                   | none => .null)
        blue_verified := .bool (page.bioVerified || page.cardVerified) } }

/-- `if obj["tweet_id"] or obj["text"]:` — keep condition of the HTML loop. -/
def keepHtml (r : Record) : Bool := truthy r.tweet_id || truthy r.text

/-- The item loop of `_parse_nitter_html`: conditional append, then
`if len(results) >= self.max_posts: break`. -/
def htmlLoop (maxPosts : Nat) (mk : HtmlItem → Record) :
    List HtmlItem → List Record → List Record
  | [], acc => acc
  | item :: rest, acc =>
    let acc' := if keepHtml (mk item) then acc ++ [mk item] else acc
    if maxPosts ≤ acc'.length then acc' else htmlLoop maxPosts mk rest acc'

/-- `TimelineFetcher._parse_nitter_html` over the selector-level page view. -/
def parse_nitter_html (maxPosts : Nat) (pd : String → Option String) (now : String)
    (page : HtmlPage) (screenName : String) : List Record :=
  htmlLoop maxPosts (mkHtmlRecord pd now page screenName) page.items []

/-- Lines 185-190 of `_parse_nitter_json`: the `items` value.  A dict with a
`statuses` key yields `data.get("statuses") or []` (whatever JSON value that
is); a bare list yields itself; anything else yields `[]`. -/
def jsonItems : Json → Json
  | .obj fs =>
    (match lookupKey fs "statuses" with
     | some v => pyOr v (.arr [])
     | none => .arr [])
  | .arr xs => .arr xs
  | _ => .arr []

/-- Python iteration `for tw in items`: lists yield their elements, strings
their characters, dicts their keys; other values raise `TypeError`. -/
def pyIter : Json → Except PyErr (List Json)
  | .arr xs => .ok xs
  | .str s => .ok (s.data.map (fun c => .str (String.singleton c)))
  | .obj fs => .ok (fs.map (fun p => Json.str p.1))
  | _ => .error .typeError

/-- The record dict built for one JSON item (lines 193-215).  `tw.get(k)`
raises `AttributeError` unless `tw` is a dict, and field gets on a dict never
fail, so the source's sequence of gets collapses to the two matches below:
one on `tw` and one on `tw.get("user", \x7b\x7d)`.  The `created_at` field is
`created_at or to_iso8601(created_at) if created_at else None`, which by
precedence is `(created_at or ...) if created_at else None`: the `to_iso8601`
call is short-circuited away in every branch, so the raw value survives. -/
def mkJsonRecord (screenName : String) (tw : Json) : Except PyErr Record :=
  match tw with
  | .obj fs =>
    let get := fun k => (lookupKey fs k).getD .null
    let tid : Option String :=
      match get "id" with
      | .null => none
      | v => some (pyStr v)
    let created := pyOr (get "date") (get "created_at")
    let createdField : Json := if truthy created then created else .null
    (match (lookupKey fs "user").getD (.obj []) with
     | .obj ufs =>
       let uget := fun k => (lookupKey ufs k).getD .null
       .ok
         { tweet_id := optStrJson tid
           created_at := createdField
           text := get "text"
           lang := get "lang"
           views := get "views"
           favorites := pyOr (pyOr (get "likes") (get "favorites")) (.num 0)
           replies := pyOr (get "replies") (.num 0)
           retweets := pyOr (get "retweets") (.num 0)
           quotes := pyOr (get "quotes") (.num 0)
           bookmarks := get "bookmarks"
           conversation_id := pyOr (get "conversation_id") (optStrJson tid)
           media := pyOr (get "media") (.arr [])
           author :=
             { rest_id := uget "id"
               name := pyOr (uget "name") (.str screenName)
               screen_name := pyOr (uget "screen_name") (.str screenName)
               avatar := uget "profile_image_url"
               blue_verified := .bool (truthy (uget "verified")) } }
     | _ => .error .attributeError)
  | _ => .error .attributeError

/-- The item loop of `_parse_nitter_json`: unconditional append, then
`if len(results) >= self.max_posts: break`. -/
def jsonLoop (maxPosts : Nat) (screenName : String) :
    List Json → List Record → Except PyErr (List Record)
  | [], acc => .ok acc
  | tw :: rest, acc =>
    match mkJsonRecord screenName tw with
    | .error e => .error e
    | .ok r =>
      if maxPosts ≤ (acc ++ [r]).length then .ok (acc ++ [r])
      else jsonLoop maxPosts screenName rest (acc ++ [r])

/-- `TimelineFetcher._parse_nitter_json`. -/
def parse_nitter_json (maxPosts : Nat) (screenName : String) (data : Json) :
    Except PyErr (List Record) :=
  match pyIter (jsonItems data) with
  | .error e => .error e
  | .ok items => jsonLoop maxPosts screenName items []

/-- One synthetic record (loop body of `_synthetic_posts`).  `pyHash` stands
for the builtin `hash` (fixed within one process run), `pd`/`now` for the
dateutil/clock collaborators of `to_iso8601`. -/
def mkSynRecord (pyHash : String → Int) (pd : String → Option String) (now : String)
    (screenName : String) (i : Nat) : Record :=
  let baseId := (pyHash screenName).natAbs % 10000000000
  let tid := toString (baseId + i)
  { tweet_id := .str tid
    created_at := .str (to_iso8601 pd now none)
    text := .str ("SYNTHETIC: Hello from @" ++ screenName ++ " #" ++ toString i)
    lang := .str "en"
    views := .str (toString (1000 + i * 7))
    favorites := .num ((10 + i : Nat) : Int)
    replies := .num ((i / 2 : Nat) : Int)
    retweets := .num ((i / 3 : Nat) : Int)
    quotes := .num ((i / 5 : Nat) : Int)
    bookmarks := .null
    conversation_id := .str tid
    media := .arr []
    author :=
      { rest_id := .null
        name := .str screenName
        screen_name := .str screenName
        avatar := .null
        blue_verified := .bool false } }

/-- `TimelineFetcher._synthetic_posts`: `min(self.max_posts, 10)` records
with sequential ids. -/
def synthetic_posts (maxPosts : Nat) (pyHash : String → Int)
    (pd : String → Option String) (now : String) (screenName : String) : List Record :=
  (List.range (min maxPosts 10)).map (mkSynRecord pyHash pd now screenName)

/-- Outcomes the external world hands the chain for one handle: construction
of the HTTP client (`self._client()`, which raises on an invalid proxy spec),
the HTML fetch after the retry wrapper has run its course (an `error` is the
final exception — exhausted retries, an invalid base URL, or any other
transport failure), and the JSON fetch combined with `json.loads` (an `error`
is either of them raising). -/
structure NetEnv where
  client : Except PyErr Unit
  htmlFetch : String → Except PyErr HtmlPage
  jsonFetch : String → Except PyErr Json

/-- Which strategy bodies ran (parse reached for html/json, generator run for
synthetic). -/
inductive Strat where
  | html
  | json
  | synthetic

/-- Observable outcome of `fetch_username`: the returned value (or the
exception, were one ever to escape), the strategies whose bodies ran, and the
URLs requested. -/
structure ChainOut where
  result : Except PyErr (List Record)
  invoked : List Strat
  urls : List String

/-- `TimelineFetcher.fetch_username` (lines 51-83).  The outer
`try/except Exception` spans client construction, the HTML fetch and parse,
and the inner JSON block; the inner `try/except Exception` spans the JSON
fetch, `json.loads` and the JSON parse.  Every caught exception falls through
to `_synthetic_posts`. -/
def fetch_username (nitterBase : String) (maxPosts : Nat) (pyHash : String → Int)
    (pd : String → Option String) (now : String) (env : NetEnv)
    (screenName : String) : ChainOut :=
  let name := usedHandle screenName
  match env.client with
  | .error _ =>
      { result := .ok (synthetic_posts maxPosts pyHash pd now name)
        invoked := [.synthetic], urls := [] }
  | .ok _ =>
    let url := pyRstripSlash nitterBase ++ "/" ++ name
    match env.htmlFetch url with
    | .error _ =>
        { result := .ok (synthetic_posts maxPosts pyHash pd now name)
          invoked := [.synthetic], urls := [url] }
    | .ok page =>
      let items := parse_nitter_html maxPosts pd now page name
      if items.isEmpty then
        let jsonUrl := pyRstripSlash nitterBase ++ "/" ++ name ++ "?_format=json"
        match env.jsonFetch jsonUrl with
        | .error _ =>
            { result := .ok (synthetic_posts maxPosts pyHash pd now name)
              invoked := [.html, .synthetic], urls := [url, jsonUrl] }
        | .ok data =>
          match parse_nitter_json maxPosts name data with
          | .error _ =>
              { result := .ok (synthetic_posts maxPosts pyHash pd now name)
                invoked := [.html, .json, .synthetic], urls := [url, jsonUrl] }
          | .ok cand =>
            if cand.isEmpty then
              { result := .ok (synthetic_posts maxPosts pyHash pd now name)
                invoked := [.html, .json, .synthetic], urls := [url, jsonUrl] }
            else
              { result := .ok (cand.take maxPosts)
                invoked := [.html, .json], urls := [url, jsonUrl] }
      else
        { result := .ok (items.take maxPosts)
          invoked := [.html], urls := [url] }

/-- State of the coordinator's admission gate (`fetch_all`, runner.py lines
87-99): the counter of `asyncio.Semaphore(cfg["concurrency"])`, and how many
per-handle tasks are pending, inside the `async with sem` region, or done. -/
structure CoordState where
  sem : Nat
  running : Nat
  pending : Nat
  finished : Nat

/-- Initial coordinator state for concurrency limit `n` and `m` handles. -/
def initCoord (n m : Nat) : CoordState := { sem := n, running := 0, pending := m, finished := 0 }

/-- Interleaving semantics of the semaphore-gated tasks: a pending task may
enter the `async with sem` region only when the counter is positive
(decrementing it), and holds it for its whole chain; leaving releases the
counter. -/
inductive CoordStep : CoordState → CoordState → Prop
  | acquire (s : CoordState) (hp : 0 < s.pending) (hs : 0 < s.sem) :
      CoordStep s { sem := s.sem - 1, running := s.running + 1,
                    pending := s.pending - 1, finished := s.finished }
  | release (s : CoordState) (hr : 0 < s.running) :
      CoordStep s { sem := s.sem + 1, running := s.running - 1,
                    pending := s.pending, finished := s.finished + 1 }

/-- States the coordinator can reach from the initial state. -/
def CoordReachable (n m : Nat) (s : CoordState) : Prop :=
  Relation.ReflTransGen CoordStep (initCoord n m) s

/-! ### Concrete fixtures used by counterexamples and witnesses -/

/-- A fixed stand-in for the builtin `hash`. -/
def h0 : String → Int := fun _ => 0

/-- A dateutil stand-in for which every parse fails. -/
def pd0 : String → Option String := fun _ => none

/-- A dateutil stand-in that parses every string to a fixed UTC instant. -/
def pdIso : String → Option String := fun _ => some "2023-08-29T14:00:00+00:00"

/-- One well-formed timeline item: status link `/jack/status/42`, text
`hello world`, one stat span `5 Likes`, no date node. -/
def itemHello : HtmlItem :=
  { tweetLinkHref := some "/jack/status/42"
    contentText := some "hello world"
    dateTitle := none
    statNodes := [{ title := some "5 Likes", text := "5 Likes" }]
    imageSrcs := []
    videoPosters := [] }

def pageHello : HtmlPage :=
  { items := [itemHello], avatarSrc := none, fullname := none
    bioVerified := false, cardVerified := false }

def recHello : Record := mkHtmlRecord pd0 "NOW" pageHello "jack" itemHello

/-- The same item with a parsable-looking date title on the date node. -/
def itemRawDate : HtmlItem := { itemHello with dateTitle := some "Aug 29, 2023 · 2:00 PM UTC" }

def pageRawDate : HtmlPage := { pageHello with items := [itemRawDate] }

/-- An HTML page with no timeline items. -/
def pageEmpty : HtmlPage :=
  { items := [], avatarSrc := none, fullname := none
    bioVerified := false, cardVerified := false }

/-- Network totally unavailable: both fetches fail after retries. -/
def envDown : NetEnv :=
  { client := .ok (), htmlFetch := fun _ => .error .httpError
    jsonFetch := fun _ => .error .httpError }

/-- Unrecoverable configuration error: the client constructor raises on an
invalid proxy spec. -/
def envCfgErr : NetEnv :=
  { client := .error .configError, htmlFetch := fun _ => .error .httpError
    jsonFetch := fun _ => .error .httpError }

/-- The HTML fetch succeeds with `pageHello`; the JSON endpoint would fail. -/
def envHtmlOk : NetEnv :=
  { client := .ok (), htmlFetch := fun _ => .ok pageHello
    jsonFetch := fun _ => .error .httpError }

/-- The HTML fetch succeeds but the page has no timeline; JSON fails. -/
def envEmptyHtml : NetEnv :=
  { client := .ok (), htmlFetch := fun _ => .ok pageEmpty
    jsonFetch := fun _ => .error .httpError }

/-- A JSON response whose single status carries a negative `likes` count. -/
def negLikesJson : Json := .arr [.obj [("id", .num 7), ("likes", .num (-1))]]

/-- The `favorites` column of a parse result. -/
def favsOf : Except PyErr (List Record) → List Json
  | .ok rs => rs.map (fun r => r.favorites)
  | .error _ => []

/-! ### Helper lemmas -/

/-- Every path through `fetch_username` returns `ok`, and the returned list
is non-empty whenever `max_posts ≥ 1`. -/
theorem fetch_spec (base : String) (mp : Nat) (h : String → Int)
    (pd : String → Option String) (now : String) (env : NetEnv) (s : String) :
    ∃ rs, (fetch_username base mp h pd now env s).result = Except.ok rs ∧
      (1 ≤ mp → 1 ≤ rs.length) := by
  have hsyn : ∀ name : String, 1 ≤ mp → 1 ≤ (synthetic_posts mp h pd now name).length := by
    intro name hmp
    simp only [synthetic_posts, List.length_map, List.length_range]
    omega
  have htake : ∀ l : List Record, l.isEmpty = false → 1 ≤ mp → 1 ≤ (l.take mp).length := by
    intro l hl hmp
    cases l with
    | nil => simp at hl
    | cons a t => simp only [List.length_take, List.length_cons]; omega
  simp only [fetch_username]
  split
  · exact ⟨_, rfl, hsyn _⟩
  · split
    · exact ⟨_, rfl, hsyn _⟩
    · split
      · split
        · exact ⟨_, rfl, hsyn _⟩
        · split
          · exact ⟨_, rfl, hsyn _⟩
          · split
            · exact ⟨_, rfl, hsyn _⟩
            · next hce => exact ⟨_, rfl, htake _ (by simpa using hce)⟩
      · next hpe => exact ⟨_, rfl, htake _ (by simpa using hpe)⟩

/-- Non-negativity of the four int-valued entries of the `stats` dict. -/
def statsOk (st : StatCounts) : Prop :=
  0 ≤ st.replies ∧ 0 ≤ st.retweets ∧ 0 ≤ st.quotes ∧ 0 ≤ st.favorites

theorem statUpdate_ok (st : StatCounts) (label : String) (h : statsOk st) :
    statsOk (statUpdate st label) := by
  unfold statUpdate
  split
  · exact h
  · split
    · exact h
    · dsimp only
      split
      · exact ⟨h.1, h.2.1, h.2.2.1, Int.natCast_nonneg _⟩
      · split
        · exact ⟨h.1, Int.natCast_nonneg _, h.2.2.1, h.2.2.2⟩
        · split
          · exact ⟨Int.natCast_nonneg _, h.2.1, h.2.2.1, h.2.2.2⟩
          · split
            · exact ⟨h.1, h.2.1, Int.natCast_nonneg _, h.2.2.2⟩
            · exact h

theorem foldStats_ok (ns : List StatNode) :
    ∀ st : StatCounts, statsOk st →
      statsOk (ns.foldl (fun st n => statUpdate st (statLabel n)) st) := by
  induction ns with
  | nil => intro st h; exact h
  | cons n rest ih => intro st h; exact ih _ (statUpdate_ok _ _ h)

/-- The four engagement counts of a record hold non-negative integers. -/
def countsOk (r : Record) : Prop :=
  (∃ n : Int, r.replies = Json.num n ∧ 0 ≤ n) ∧
  (∃ n : Int, r.retweets = Json.num n ∧ 0 ≤ n) ∧
  (∃ n : Int, r.quotes = Json.num n ∧ 0 ≤ n) ∧
  (∃ n : Int, r.favorites = Json.num n ∧ 0 ≤ n)

theorem mkHtmlRecord_countsOk (pd : String → Option String) (now : String)
    (page : HtmlPage) (s : String) (item : HtmlItem) :
    countsOk (mkHtmlRecord pd now page s item) := by
  have h := foldStats_ok item.statNodes initStats ⟨le_refl 0, le_refl 0, le_refl 0, le_refl 0⟩
  exact ⟨⟨(statsOf item).replies, rfl, h.1⟩, ⟨(statsOf item).retweets, rfl, h.2.1⟩,
         ⟨(statsOf item).quotes, rfl, h.2.2.1⟩, ⟨(statsOf item).favorites, rfl, h.2.2.2⟩⟩

theorem htmlLoop_pres (mp : Nat) (mk : HtmlItem → Record) (P : Record → Prop)
    (hmk : ∀ it, P (mk it)) :
    ∀ (items : List HtmlItem) (acc : List Record), (∀ r ∈ acc, P r) →
      ∀ r ∈ htmlLoop mp mk items acc, P r := by
  intro items
  induction items with
  | nil => intro acc hacc r hr; exact hacc r hr
  | cons it rest ih =>
    intro acc hacc r hr
    simp only [htmlLoop] at hr
    have hacc' : ∀ x ∈ (if keepHtml (mk it) = true then acc ++ [mk it] else acc), P x := by
      intro x hx
      by_cases hk : keepHtml (mk it) = true
      · rw [if_pos hk] at hx
        rcases List.mem_append.mp hx with h1 | h1
        · exact hacc x h1
        · rw [List.mem_singleton.mp h1]; exact hmk it
      · rw [if_neg hk] at hx; exact hacc x hx
    by_cases hl : mp ≤ (if keepHtml (mk it) = true then acc ++ [mk it] else acc).length
    · rw [if_pos hl] at hr; exact hacc' r hr
    · rw [if_neg hl] at hr; exact ih _ hacc' r hr

/-- Top-level JSON values that are neither a dict nor a list. -/
def scalarTop : Json → Bool
  | .obj _ => false
  | .arr _ => false
  | _ => true

/-- A JSON item the per-item mapping is total on: a dict whose `user` entry,
when present, is itself a dict. -/
def goodItem : Json → Bool
  | .obj fs =>
    (match lookupKey fs "user" with
     | none => true
     | some (.obj _) => true
     | some _ => false)
  | _ => false

theorem mkJsonRecord_ok (name : String) (tw : Json) (h : goodItem tw = true) :
    ∃ r, mkJsonRecord name tw = .ok r := by
  cases tw with
  | obj fs =>
    cases hu : lookupKey fs "user" with
    | none =>
      simp only [mkJsonRecord, hu, Option.getD_none]
      exact ⟨_, rfl⟩
    | some v =>
      simp only [goodItem, hu] at h
      cases v with
      | obj ufs =>
        simp only [mkJsonRecord, hu, Option.getD_some]
        exact ⟨_, rfl⟩
      | null => simp at h
      | bool b => simp at h
      | num n => simp at h
      | str s => simp at h
      | arr xs => simp at h
  | null => simp [goodItem] at h
  | bool b => simp [goodItem] at h
  | num n => simp [goodItem] at h
  | str s => simp [goodItem] at h
  | arr xs => simp [goodItem] at h

theorem jsonLoop_ok (mp : Nat) (name : String) :
    ∀ (xs : List Json) (acc : List Record), (∀ tw ∈ xs, goodItem tw = true) →
      ∃ rs, jsonLoop mp name xs acc = .ok rs := by
  intro xs
  induction xs with
  | nil => intro acc _; exact ⟨acc, rfl⟩
  | cons tw rest ih =>
    intro acc hgood
    obtain ⟨r, hr⟩ := mkJsonRecord_ok name tw (hgood tw (List.mem_cons_self tw rest))
    simp only [jsonLoop, hr]
    by_cases hl : mp ≤ (acc ++ [r]).length
    · rw [if_pos hl]; exact ⟨_, rfl⟩
    · rw [if_neg hl]; exact ih _ (fun x hx => hgood x (List.mem_cons_of_mem tw hx))

/-- The running+semaphore sum is conserved by every coordinator step. -/
theorem coord_invariant (n m : Nat) (s : CoordState) (h : CoordReachable n m s) :
    s.running + s.sem = n := by
  induction h with
  | refl => simp [initCoord]
  | tail _ hstep ih =>
    cases hstep with
    | acquire hp hs => dsimp only at ih ⊢; omega
    | release hr => dsimp only at ih ⊢; omega

/-! ### Claim theorems -/

/-- Claim C1 (code bug): the claim says `created_at` is always a non-null
UTC-normalised ISO string, falling back to "now".  The code computes the
conversion into `created_at_iso` but then stores `created_at or
created_at_iso` (line 163), so the conversion is dead: with no date node the
field is null, and with a date node the raw title string is stored verbatim
even though `to_iso8601` (third conjunct) would have produced the normalised
value the claim requires. -/
theorem c1_created_at_raw_or_null :
    (parse_nitter_html 50 pdIso "2026-10-12T00:00:00+00:00" pageHello "jack").map
        (fun r => r.created_at) = [Json.null] ∧
    (parse_nitter_html 50 pdIso "2026-10-12T00:00:00+00:00" pageRawDate "jack").map
        (fun r => r.created_at) = [Json.str "Aug 29, 2023 · 2:00 PM UTC"] ∧
    to_iso8601 pdIso "2026-10-12T00:00:00+00:00" (some "Aug 29, 2023 · 2:00 PM UTC")
      = "2023-08-29T14:00:00+00:00" :=
  ⟨rfl, rfl, rfl⟩

/-- Claim C2: for every handle and every network behaviour, if the configured
maximum posts per handle is at least 1 then `fetch_username` returns (never
raises) a list of at least one record; the terminal synthetic strategy alone
produces `min maxPosts 10 ≥ 1` records. -/
theorem c2_chain_never_empty (base : String) (mp : Nat) (h : String → Int)
    (pd : String → Option String) (now : String) (env : NetEnv) (s : String)
    (hmp : 1 ≤ mp) :
    (∃ rs, (fetch_username base mp h pd now env s).result = Except.ok rs ∧ 1 ≤ rs.length) ∧
    (synthetic_posts mp h pd now (usedHandle s)).length = min mp 10 ∧
    1 ≤ min mp 10 := by
  refine ⟨?_, ?_, ?_⟩
  · obtain ⟨rs, hok, hlen⟩ := fetch_spec base mp h pd now env s
    exact ⟨rs, hok, hlen hmp⟩
  · simp [synthetic_posts]
  · omega

/-- Witness for C2 at a concrete input: network totally down, max_posts 5. -/
theorem c2_witness :
    (∃ rs, (fetch_username "https://nitter.net" 5 h0 pd0 "NOW" envDown "jack").result
        = Except.ok rs ∧ 1 ≤ rs.length) ∧
    (synthetic_posts 5 h0 pd0 "NOW" (usedHandle "jack")).length = min 5 10 ∧
    1 ≤ min 5 10 :=
  c2_chain_never_empty "https://nitter.net" 5 h0 pd0 "NOW" envDown "jack" (by decide)

/-- Counterexample to claim C3: the claim says an unrecoverable configuration
error (here: the client constructor raising on an invalid proxy spec, modelled
by `envCfgErr.client = .error .configError`) is surfaced immediately out of
the chain.  In fact the blanket `except Exception` catches it and the chain
returns the synthetic batch with an `ok` outcome — no exception escapes. -/
theorem c3_counterexample :
    (fetch_username "https://nitter.net" 5 h0 pd0 "NOW" envCfgErr "jack").result
      = Except.ok (synthetic_posts 5 h0 pd0 "NOW" "jack") ∧
    (fetch_username "https://nitter.net" 5 h0 pd0 "NOW" envCfgErr "jack").invoked
      = [Strat.synthetic] :=
  ⟨rfl, rfl⟩

/-- Claim C3 as amended: no failure of any kind — configuration errors
included — escapes `fetch_username`; every exception raised inside the
guarded region is caught and answered with a strategy result, so the chain
never raises past its own boundary. -/
theorem c3_never_raises (base : String) (mp : Nat) (h : String → Int)
    (pd : String → Option String) (now : String) (env : NetEnv) (s : String) :
    ∃ rs, (fetch_username base mp h pd now env s).result = Except.ok rs := by
  obtain ⟨rs, hok, _⟩ := fetch_spec base mp h pd now env s
  exact ⟨rs, hok⟩

/-- Claim C4: with the process hash `h` fixed, two invocations of the
synthetic strategy for the same handle agree on everything except the
timestamp — in particular on ids and placeholder texts — and the ids are the
base id `abs(hash(handle)) % 10^10` plus sequential offsets. -/
theorem c4_synthetic_deterministic (h : String → Int) (pd : String → Option String)
    (mp : Nat) (now1 now2 : String) (name : String) :
    (synthetic_posts mp h pd now1 name).map (fun r => (r.tweet_id, r.text)) =
      (synthetic_posts mp h pd now2 name).map (fun r => (r.tweet_id, r.text)) ∧
    (synthetic_posts mp h pd now1 name).map (fun r => r.tweet_id) =
      (List.range (min mp 10)).map
        (fun i => Json.str (toString ((h name).natAbs % 10000000000 + i))) := by
  constructor
  · simp only [synthetic_posts, List.map_map]
    rfl
  · simp only [synthetic_posts, List.map_map]
    rfl

/-- Counterexample to claim C5: the JSON strategy does not validate source
counts — a status with `"likes": -1` yields `favorites = -1`, a negative
engagement value in the produced record. -/
theorem c5_counterexample :
    favsOf (parse_nitter_json 50 "jack" negLikesJson) = [Json.num (-1)] := rfl

/-- Claim C5 as amended: the HTML strategy and the synthetic strategy always
produce non-negative integer engagement counts (the HTML counts start at 0
and are only overwritten by parsed naturals; the synthetic counts are derived
from the index), but the JSON strategy merely defaults absent or falsy count
fields to 0 and passes source values through unvalidated. -/
theorem c5_counts_nonneg (mp : Nat) (h : String → Int) (pd : String → Option String)
    (now s : String) (page : HtmlPage) (r : Record) :
    (r ∈ parse_nitter_html mp pd now page s → countsOk r) ∧
    (r ∈ synthetic_posts mp h pd now s → countsOk r) := by
  constructor
  · intro hr
    exact htmlLoop_pres mp _ countsOk (fun it => mkHtmlRecord_countsOk pd now page s it)
      page.items [] (by intro x hx; cases hx) r hr
  · intro hr
    simp only [synthetic_posts, List.mem_map] at hr
    obtain ⟨i, _, hi⟩ := hr
    subst hi
    exact ⟨⟨_, rfl, Int.natCast_nonneg _⟩, ⟨_, rfl, Int.natCast_nonneg _⟩,
           ⟨_, rfl, Int.natCast_nonneg _⟩, ⟨_, rfl, Int.natCast_nonneg _⟩⟩

/-- Witness for C5 at a concrete input: the record parsed from `pageHello`
(one item with stat span `5 Likes`). -/
theorem c5_witness :
    recHello ∈ parse_nitter_html 50 pd0 "NOW" pageHello "jack" ∧ countsOk recHello := by
  have hm : recHello ∈ parse_nitter_html 50 pd0 "NOW" pageHello "jack" := by
    rw [show parse_nitter_html 50 pd0 "NOW" pageHello "jack" = [recHello] from rfl]
    exact List.mem_singleton.mpr rfl
  exact ⟨hm, (c5_counts_nonneg 50 h0 pd0 "NOW" "jack" pageHello recHello).1 hm⟩

/-- Counterexample to claim C6: the JSON parser is not total over arbitrary
parsed JSON — a bare array whose item is a number makes `tw.get("id")` raise
`AttributeError`. -/
theorem c6_counterexample :
    parse_nitter_json 50 "jack" (.arr [.num 1]) = .error .attributeError := rfl

/-- Claim C6 as amended: a top-level value that is neither a dict nor a list
yields the empty sequence without error, and the item-by-item mapping with
documented defaults is total exactly on item lists whose members are dicts
with a dict-or-absent `user` entry; a non-dict item (or a dict whose `user`
is present but not a dict, or a truthy non-sequence `statuses` value) raises
instead. -/
theorem c6_json_totality_domain (mp : Nat) (name : String) (data : Json) :
    (scalarTop data = true → parse_nitter_json mp name data = .ok []) ∧
    (∀ xs : List Json, jsonItems data = .arr xs → (∀ tw ∈ xs, goodItem tw = true) →
      ∃ rs, parse_nitter_json mp name data = .ok rs) := by
  constructor
  · intro hs
    cases data with
    | null => rfl
    | bool b => rfl
    | num n => rfl
    | str s => rfl
    | arr xs => simp [scalarTop] at hs
    | obj fs => simp [scalarTop] at hs
  · intro xs hxs hgood
    unfold parse_nitter_json
    rw [hxs]
    exact jsonLoop_ok mp name xs [] hgood

/-- Witness for C6 at concrete inputs: a scalar top level maps to `ok []`,
and a one-element array of a well-formed status dict parses without error. -/
theorem c6_witness :
    parse_nitter_json 50 "jack" (.num 5) = .ok [] ∧
    ∃ rs, parse_nitter_json 50 "jack" (.arr [.obj [("id", .num 5)]]) = .ok rs :=
  ⟨(c6_json_totality_domain 50 "jack" (.num 5)).1 rfl,
   (c6_json_totality_domain 50 "jack" (.arr [.obj [("id", .num 5)]])).2
     [.obj [("id", .num 5)]] rfl
     (by intro tw htw; rw [List.mem_singleton.mp htw]; rfl)⟩

/-- Claim C7: if the client is constructed, the HTML fetch succeeds and the
HTML parse yields at least one record, then the chain's outcome is exactly
the HTML batch capped at `max_posts`, and neither the JSON nor the synthetic
strategy body runs. -/
theorem c7_html_short_circuits (base : String) (mp : Nat) (h : String → Int)
    (pd : String → Option String) (now : String) (env : NetEnv) (s : String)
    (page : HtmlPage)
    (hc : env.client = Except.ok ())
    (hh : env.htmlFetch (pyRstripSlash base ++ "/" ++ usedHandle s) = Except.ok page)
    (hne : (parse_nitter_html mp pd now page (usedHandle s)).isEmpty = false) :
    (fetch_username base mp h pd now env s).invoked = [Strat.html] ∧
    (fetch_username base mp h pd now env s).result
      = Except.ok ((parse_nitter_html mp pd now page (usedHandle s)).take mp) := by
  simp only [fetch_username, hc, hh, hne]
  exact ⟨rfl, rfl⟩

/-- Witness for C7 at a concrete input: `pageHello` parses to one record, so
the chain stops at the HTML strategy. -/
theorem c7_witness :
    (fetch_username "https://nitter.net" 50 h0 pd0 "NOW" envHtmlOk "jack").invoked
      = [Strat.html] ∧
    (fetch_username "https://nitter.net" 50 h0 pd0 "NOW" envHtmlOk "jack").result
      = Except.ok ((parse_nitter_html 50 pd0 "NOW" pageHello "jack").take 50) :=
  c7_html_short_circuits "https://nitter.net" 50 h0 pd0 "NOW" envHtmlOk "jack"
    pageHello rfl rfl rfl

/-- Counterexample to claim C8: the claim asserts the handle used is the
input minus surrounding whitespace and leading `@`s, explicitly including
inputs where whitespace precedes the `@`.  The code runs `lstrip("@")`
before `strip()`, so for `" @jack"` the `@` survives: the handle used — and
the fetch URL — keep the `@`. -/
theorem c8_counterexample :
    usedHandle " @jack" = "@jack" ∧
    usedHandle " @jack" ≠ "jack" ∧
    (fetch_username "https://nitter.net" 5 h0 pd0 "NOW" envDown " @jack").urls
      = ["https://nitter.net/@jack"] :=
  ⟨rfl, by decide, rfl⟩

/-- Claim C8 as amended: the handle used for every fetch URL and for
synthesis is `usedHandle`, i.e. the input with the leading run of `@`
characters removed first and surrounding whitespace stripped second, case
preserved; consequently an `@` preceded by whitespace survives. -/
theorem c8_handle_normalisation (base : String) (mp : Nat) (h : String → Int)
    (pd : String → Option String) (now : String) (s : String) :
    (fetch_username base mp h pd now envDown s).urls
      = [pyRstripSlash base ++ "/" ++ usedHandle s] ∧
    (fetch_username base mp h pd now envDown s).result
      = Except.ok (synthetic_posts mp h pd now (usedHandle s)) ∧
    (fetch_username base mp h pd now envEmptyHtml s).urls
      = [pyRstripSlash base ++ "/" ++ usedHandle s,
         pyRstripSlash base ++ "/" ++ usedHandle s ++ "?_format=json"] ∧
    usedHandle "@jack " = "jack" ∧
    usedHandle " @jack" = "@jack" ∧
    usedHandle "  @@Jack  " = "@@Jack" :=
  ⟨rfl, rfl, rfl, rfl, rfl, rfl⟩

/-- Claim C9: the stat-node scan extracts, for any label matched by the count
regex, the decimal integer obtained by deleting every `,` and every `.` from
the numeric group — so `12,345 Likes` sets favorites to 12345 and
`1.234 Likes` sets favorites to 1234 — and a matched label whose word
contains none of like/retweet/repl/quote leaves the counts unchanged. -/
theorem c9_stat_regex :
    (∀ st : StatCounts, statUpdate st "12,345 Likes" = { st with favorites := 12345 }) ∧
    (∀ st : StatCounts, statUpdate st "1.234 Likes" = { st with favorites := 1234 }) ∧
    (∀ (st : StatCounts) (label : String) (g : List Char × List Char),
      statSearch label.data = some g →
      containsSub "like".data (g.2.map Char.toLower) = false →
      containsSub "retweet".data (g.2.map Char.toLower) = false →
      containsSub "repl".data (g.2.map Char.toLower) = false →
      containsSub "quote".data (g.2.map Char.toLower) = false →
      statUpdate st label = st) ∧
    (∀ (st : StatCounts) (label : String) (g : List Char × List Char),
      statSearch label.data = some g →
      containsSub "like".data (g.2.map Char.toLower) = true →
      statUpdate st label
        = { st with
            favorites := ((digitsVal (g.1.filter (fun c => !(c == ',' || c == '.'))) : Nat) : Int) }) := by
  refine ⟨fun st => rfl, fun st => rfl, ?_, ?_⟩
  · intro st label g hs h1 h2 h3 h4
    unfold statUpdate
    by_cases he : label = ""
    · subst he
      rw [show statSearch ("" : String).data = none from rfl] at hs
      exact Option.noConfusion hs
    · rw [if_neg (by simpa using he), hs]
      simp [h1, h2, h3, h4]
  · intro st label g hs h1
    unfold statUpdate
    by_cases he : label = ""
    · subst he
      rw [show statSearch ("" : String).data = none from rfl] at hs
      exact Option.noConfusion hs
    · rw [if_neg (by simpa using he), hs]
      simp [h1]

/-- Witness for C9 at a concrete input: `7 Views` is matched by the regex but
its word contains no recognised keyword, so the counts are unchanged. -/
theorem c9_witness :
    statSearch "7 Views".data = some ("7".data, "Views".data) ∧
    statUpdate { replies := 1, retweets := 2, quotes := 3, favorites := 4 } "7 Views"
      = { replies := 1, retweets := 2, quotes := 3, favorites := 4 } :=
  ⟨rfl, c9_stat_regex.2.2.1 { replies := 1, retweets := 2, quotes := 3, favorites := 4 }
      "7 Views" ("7".data, "Views".data) rfl rfl rfl rfl rfl⟩

/-- Claim C10: in the interleaving semantics of the coordinator's
semaphore-gated tasks, every reachable state has at most `n` tasks inside
their `async with sem` region (hence at most `n` chains, and at most `n`
fetches, in flight) when the admission gate starts at `n`. -/
theorem c10_concurrency_bound (n m : Nat) (s : CoordState)
    (h : CoordReachable n m s) : s.running ≤ n := by
  have hinv := coord_invariant n m s h
  omega

/-- Witness for C10 at a concrete reachable state: limit 2, three handles,
one task admitted. -/
theorem c10_witness :
    CoordReachable 2 3 { sem := 1, running := 1, pending := 2, finished := 0 } ∧
    ({ sem := 1, running := 1, pending := 2, finished := 0 } : CoordState).running ≤ 2 := by
  have hstep : CoordStep (initCoord 2 3) { sem := 1, running := 1, pending := 2, finished := 0 } :=
    CoordStep.acquire (initCoord 2 3) (by decide) (by decide)
  exact ⟨Relation.ReflTransGen.single hstep,
    c10_concurrency_bound 2 3 _ (Relation.ReflTransGen.single hstep)⟩

end TwitterTimeline
